import Mathlib

/-!
Shallow embedding of `cmd/server/main.go` of triage-party.

`main` is a sequential procedure whose behaviour is determined by the
command-line flags and by the results of the external calls it makes
(token reading, file opening, cache load, configuration load, rule
listing, cache save, a one-shot update run, and the PORT environment
variable).  We model it as a pure function from those inputs to the
ordered trace of stages it reached together with its final outcome.
The two goroutines it spawns in continuous mode (the signal handler and
the update-loop watcher) are modelled as separate pure step functions of
the results they observe.
-/

/-- The rule type as used by `main.go`.  `triage.Rule` lives in
`pkg/triage`; the only field `main.go` reads is `Repos` (in
`calculateSiteName`), so only that field is modelled. -/
structure Rule where
  repos : List String
deriving Repr, DecidableEq

/-- Go `parts := strings.Split(r, "/"); parts[len(parts)-1]`: the final
`/`-separated component of a repository name.  `strings.Split` with a
non-empty separator always returns at least one element, which
`String.splitOn` matches, so the default of `getLastD` is never used. -/
def repoBase (r : String) : String :=
  (r.splitOn "/").getLastD ""

/-- One insertion `seen[k] = true` into the `seen` map of
`calculateSiteName`, modelling the map as its list of keys in insertion
order. -/
def insertSeen (seen : List String) (k : String) : List String :=
  if k ∈ seen then seen else seen ++ [k]

/-- The inner loop of `calculateSiteName`: `for _, r := range t.Repos {
seen[parts[len(parts)-1]] = true }`. -/
def insertRepoBases (acc : List String) (rs : List String) : List String :=
  rs.foldl (fun a r => insertSeen a (repoBase r)) acc

/-- The keys of the `seen` map built by the nested loops of
`calculateSiteName` (`for _, t := range ts { for _, r := range t.Repos
{ seen[parts[len(parts)-1]] = true } }`).  Go map iteration order is
unspecified; we fix insertion order as the determinization (the
properties proved below are order-independent). -/
def seenKeys (ts : List Rule) : List String :=
  ts.foldl (fun acc t => insertRepoBases acc t.repos) []

/-- `calculateSiteName` from `main.go`: collect the distinct final path
components of every repository of every rule and join them with
`" + "`. -/
def calculateSiteName (ts : List Rule) : String :=
  String.intercalate " + " (seenKeys ts)

/-- Modelled from the spec: `initcache.DefaultDiskPath` lives in
`pkg/initcache`, which is not under `src/` (only its caller `main` is).
The spec requires a deterministic location derived from configuration
identity "so distinct configurations or repository overrides never
collide on the same cache file"; we model it as an injective encoding of
the `(configPath, reposOverride)` pair into a single path string (a
unary length field for the first component followed by a separator). -/
def DefaultDiskPath (configPath reposOverride : String) : String :=
  String.mk (List.replicate configPath.length 'x' ++ ':' :: (configPath.data ++ reposOverride.data))

/-- `listenAddr := fmt.Sprintf(":%s", os.Getenv("PORT")); if listenAddr
== ":" { listenAddr = fmt.Sprintf(":%d", *port) }`.  `os.Getenv`
returns `""` both for an unset and for an empty variable, so `portEnv =
""` covers both. -/
def listenAddr (portEnv : String) (port : Int) : String :=
  let a := ":" ++ portEnv
  if a = ":" then ":" ++ toString port else a

/-- The stages of `main`, in source order. -/
inductive Ev
  | readToken      -- triage.MustReadToken
  | openConfig     -- os.Open(findPath(*configPath))
  | initCache      -- c.Initialize()
  | loadConfig     -- tp.Load(f)
  | listRulesEv    -- tp.ListRules()
  | preSave        -- the "Make sure save works" c.Save()
  | newUpdater     -- updater.New(...)
  | runOnceEv (force : Bool)  -- u.RunOnce(ctx, force) in the dry-run branch
  | registerSignals           -- signal.Notify(sigc, os.Interrupt, syscall.SIGTERM)
  | startLoop      -- go func() { ... u.Loop(ctx) ... }()
  | startServer    -- http.ListenAndServe
deriving Repr, DecidableEq, BEq

/-- How the `main` procedure ends. -/
inductive Outcome
  | fatalExit (stage : String)  -- klog.Exitf: log and exit non-zero
  | exitZero                    -- os.Exit(0)
  | serving (addr : String)     -- blocked in http.ListenAndServe
deriving Repr, DecidableEq

/-- The process exit status an outcome produces, if any.  `klog.Exitf`
calls `os.Exit(255)`. -/
def Outcome.exitCode : Outcome → Option Nat
  | .fatalExit _ => some 255
  | .exitZero => some 0
  | .serving _ => none

/-- The command-line flags of `main.go` that the modelled paths read. -/
structure Flags where
  configPath : String
  initCachePath : String
  reposOverride : String
  dryRun : Bool
  port : Int
  siteNameFlag : String
deriving Repr

/-- The results of the external calls `main` makes, in the order it
makes them.  `some e` is a non-nil Go error, `none` is nil. -/
structure World where
  tokenErr : Option String
  openErr : Option String
  cacheInitErr : Option String
  loadErr : Option String
  listRulesErr : Option String
  rules : List Rule
  preSaveErr : Option String
  runOnceErr : Option String
  portEnv : String
deriving Repr

/-- What one run of `main` produced: the ordered trace of stages it
reached, its outcome, and the values of `cachePath`, `cfg.Repos` and
`sn` at the points where the code computes them (`none` when the run
ended before that point; for `cfg.Repos`, `none` also models the field
being left at its zero value when the override is empty). -/
structure MainResult where
  events : List Ev
  outcome : Outcome
  cachePath : Option String
  cfgRepos : Option (List String)
  siteName : Option String
deriving Repr

/-- The body of `main` from `main.go`, line by line:
config-flag check, token read, config open, cache-path choice, cache
load, repos override, config load, rule listing, site-name choice,
write-access pre-check save, updater construction, then either the
dry-run one-shot branch or the continuous branch (signal handler, loop
goroutine, HTTP server). -/
def mainRun (fl : Flags) (w : World) : MainResult :=
  if fl.configPath = "" then
    ⟨[], .fatalExit "config-required", none, none, none⟩
  else
    match w.tokenErr with
    | some _ => ⟨[.readToken], .fatalExit "token", none, none, none⟩
    | none =>
      match w.openErr with
      | some _ => ⟨[.readToken, .openConfig], .fatalExit "open", none, none, none⟩
      | none =>
        let cachePath := if fl.initCachePath = "" then
            DefaultDiskPath fl.configPath fl.reposOverride
          else fl.initCachePath
        match w.cacheInitErr with
        | some _ =>
          ⟨[.readToken, .openConfig, .initCache], .fatalExit "initcache",
            some cachePath, none, none⟩
        | none =>
          let cfgRepos := if fl.reposOverride = "" then none
            else some (fl.reposOverride.splitOn ",")
          match w.loadErr with
          | some _ =>
            ⟨[.readToken, .openConfig, .initCache, .loadConfig], .fatalExit "load",
              some cachePath, cfgRepos, none⟩
          | none =>
            match w.listRulesErr with
            | some _ =>
              ⟨[.readToken, .openConfig, .initCache, .loadConfig, .listRulesEv],
                .fatalExit "listrules", some cachePath, cfgRepos, none⟩
            | none =>
              let sn := if fl.siteNameFlag = "" then calculateSiteName w.rules
                else fl.siteNameFlag
              match w.preSaveErr with
              | some _ =>
                ⟨[.readToken, .openConfig, .initCache, .loadConfig, .listRulesEv,
                    .preSave],
                  .fatalExit "presave", some cachePath, cfgRepos, some sn⟩
              | none =>
                if fl.dryRun then
                  match w.runOnceErr with
                  | some _ =>
                    ⟨[.readToken, .openConfig, .initCache, .loadConfig, .listRulesEv,
                        .preSave, .newUpdater, .runOnceEv true],
                      .fatalExit "runonce", some cachePath, cfgRepos, some sn⟩
                  | none =>
                    ⟨[.readToken, .openConfig, .initCache, .loadConfig, .listRulesEv,
                        .preSave, .newUpdater, .runOnceEv true],
                      .exitZero, some cachePath, cfgRepos, some sn⟩
                else
                  ⟨[.readToken, .openConfig, .initCache, .loadConfig, .listRulesEv,
                      .preSave, .newUpdater, .registerSignals, .startLoop, .startServer],
                    .serving (listenAddr w.portEnv fl.port),
                    some cachePath, cfgRepos, some sn⟩

/-- The signals `signal.Notify(sigc, os.Interrupt, syscall.SIGTERM)`
subscribes to (`os.Interrupt` is SIGINT). -/
def handledSignals : List String := ["SIGINT", "SIGTERM"]

/-- Actions of the signal-handler goroutine. -/
inductive HAct
  | logSignal (sig : String)
  | saveCache
  | logSaveError (e : String)
  | exitProcess (code : Nat)
deriving Repr, DecidableEq

/-- The body of the signal-handler goroutine for one received signal:
log it, call `c.Save()`, log (not exit on) a save error, then
`os.Exit(0)`. -/
def signalHandlerStep (sig : String) (saveErr : Option String) : List HAct :=
  [HAct.logSignal sig, HAct.saveCache] ++
    (match saveErr with
     | some e => [HAct.logSaveError e]
     | none => []) ++
    [HAct.exitProcess 0]

/-- What the loop-watcher goroutine does once `u.Loop(ctx)` returns. -/
inductive LAct
  | exitFatal (msg : String)  -- klog.Exitf
  | goroutineEnds             -- fall off the end; the process keeps serving
deriving Repr, DecidableEq

/-- The body of the loop-watcher goroutine, exactly as written at
`main.go:149-153`: `if err := u.Loop(ctx); err == nil {
klog.Exitf("loop failed: %v", err) }`.  Note the condition: it exits
fatally when `Loop` returned nil (formatting nil as `<nil>`), and does
nothing when `Loop` returned a non-nil error. -/
def loopWatcherStep (loopErr : Option String) : LAct :=
  match loopErr with
  | none => LAct.exitFatal "loop failed: <nil>"
  | some _ => LAct.goroutineEnds

/-- `a` occurs at a strictly earlier position than `b` in `l`. -/
def evBefore (a b : Ev) (l : List Ev) : Prop :=
  ∃ i j, i < j ∧ l.get? i = some a ∧ l.get? j = some b

/-- Modelled from the spec: the repository-list resolution inside
`pkg/triage` is not under `src/` (only the assignment `cfg.Repos =
strings.Split(*reposOverride, ",")` in `main` is).  Per §6 of the
spec, a supplied override list "supersedes configuration-declared
repositories"; when `main` leaves `cfg.Repos` at its zero value
(modelled as `none`) the configuration's own declared repositories are
in effect. -/
def effectiveRepos (configDeclared : List String) (overrideRepos : Option (List String)) :
    List String :=
  match overrideRepos with
  | some rs => rs
  | none => configDeclared

/-! ## Helper lemmas -/

lemma mem_insertSeen (seen : List String) (k b : String) :
    b ∈ insertSeen seen k ↔ b ∈ seen ∨ b = k := by
  unfold insertSeen
  split
  · next h =>
    constructor
    · exact Or.inl
    · rintro (hb | rfl)
      · exact hb
      · exact h
  · simp

lemma nodup_insertSeen (seen : List String) (k : String) (h : seen.Nodup) :
    (insertSeen seen k).Nodup := by
  unfold insertSeen
  split
  · exact h
  · next hk => simp [List.nodup_append, h, hk]

lemma mem_insertRepoBases (rs : List String) :
    ∀ (acc : List String) (b : String),
      b ∈ insertRepoBases acc rs ↔ b ∈ acc ∨ ∃ r ∈ rs, repoBase r = b := by
  induction rs with
  | nil => simp [insertRepoBases]
  | cons r rs ih =>
    intro acc b
    simp only [insertRepoBases, List.foldl_cons] at *
    rw [ih, mem_insertSeen]
    constructor
    · rintro ((hb | rfl) | ⟨r', hr', hb⟩)
      · exact Or.inl hb
      · exact Or.inr ⟨r, List.mem_cons_self r rs, rfl⟩
      · exact Or.inr ⟨r', List.mem_cons_of_mem r hr', hb⟩
    · rintro (hb | ⟨r', hr', hb⟩)
      · exact Or.inl (Or.inl hb)
      · rcases List.mem_cons.mp hr' with rfl | hr'
        · exact Or.inl (Or.inr hb.symm)
        · exact Or.inr ⟨r', hr', hb⟩

lemma nodup_insertRepoBases (rs : List String) :
    ∀ acc : List String, acc.Nodup → (insertRepoBases acc rs).Nodup := by
  induction rs with
  | nil => intro acc h; simpa [insertRepoBases] using h
  | cons r rs ih =>
    intro acc h
    simpa [insertRepoBases] using ih (insertSeen acc (repoBase r)) (nodup_insertSeen _ _ h)

lemma mem_seenKeys_aux (ts : List Rule) :
    ∀ (acc : List String) (b : String),
      b ∈ ts.foldl (fun acc t => insertRepoBases acc t.repos) acc ↔
        b ∈ acc ∨ ∃ t ∈ ts, ∃ r ∈ t.repos, repoBase r = b := by
  induction ts with
  | nil => simp
  | cons t ts ih =>
    intro acc b
    simp only [List.foldl_cons]
    rw [ih, mem_insertRepoBases]
    constructor
    · rintro ((hb | ⟨r, hr, hb⟩) | ⟨t', ht', hrest⟩)
      · exact Or.inl hb
      · exact Or.inr ⟨t, List.mem_cons_self t ts, r, hr, hb⟩
      · exact Or.inr ⟨t', List.mem_cons_of_mem t ht', hrest⟩
    · rintro (hb | ⟨t', ht', hrest⟩)
      · exact Or.inl (Or.inl hb)
      · rcases List.mem_cons.mp ht' with rfl | ht'
        · exact Or.inl (Or.inr hrest)
        · exact Or.inr ⟨t', ht', hrest⟩

lemma nodup_seenKeys_aux (ts : List Rule) :
    ∀ acc : List String, acc.Nodup →
      (ts.foldl (fun acc t => insertRepoBases acc t.repos) acc).Nodup := by
  induction ts with
  | nil => intro acc h; simpa using h
  | cons t ts ih =>
    intro acc h
    simpa using ih (insertRepoBases acc t.repos) (nodup_insertRepoBases _ _ h)

lemma mem_seenKeys (ts : List Rule) (b : String) :
    b ∈ seenKeys ts ↔ ∃ t ∈ ts, ∃ r ∈ t.repos, repoBase r = b := by
  unfold seenKeys
  rw [mem_seenKeys_aux]
  simp

lemma nodup_seenKeys (ts : List Rule) : (seenKeys ts).Nodup :=
  nodup_seenKeys_aux ts [] List.nodup_nil

lemma replicate_x_colon_inj :
    ∀ {n m : ℕ} {l l' : List Char},
      List.replicate n 'x' ++ ':' :: l = List.replicate m 'x' ++ ':' :: l' →
        n = m ∧ l = l' := by
  intro n
  induction n with
  | zero =>
    intro m l l' h
    cases m with
    | zero => simpa using h
    | succ m => simp [List.replicate_succ] at h
  | succ n ih =>
    intro m l l' h
    cases m with
    | zero => simp [List.replicate_succ] at h
    | succ m =>
      simp only [List.replicate_succ, List.cons_append, List.cons.injEq, true_and] at h
      obtain ⟨hn, hl⟩ := ih h
      exact ⟨by omega, hl⟩

lemma defaultDiskPath_inj (c₁ r₁ c₂ r₂ : String)
    (h : DefaultDiskPath c₁ r₁ = DefaultDiskPath c₂ r₂) : c₁ = c₂ ∧ r₁ = r₂ := by
  unfold DefaultDiskPath at h
  have hd : List.replicate c₁.length 'x' ++ ':' :: (c₁.data ++ r₁.data) =
      List.replicate c₂.length 'x' ++ ':' :: (c₂.data ++ r₂.data) :=
    congrArg String.data h
  obtain ⟨hn, hl⟩ := replicate_x_colon_inj hd
  have hlen : c₁.data.length = c₂.data.length := hn
  obtain ⟨hc, hr⟩ := List.append_inj hl hlen
  exact ⟨String.ext hc, String.ext hr⟩

lemma colon_append_eq_colon_iff (s : String) : (":" ++ s = ":") ↔ s = "" := by
  constructor
  · intro h
    have hd : (":" ++ s).data = (":" : String).data := congrArg String.data h
    simp [String.data_append] at hd
    exact String.ext hd
  · intro h
    subst h
    rfl

/-! ## Claim theorems -/

/-- C1: the claim states that a non-nil error from `u.Loop(ctx)` makes the
caller report it and terminate the process.  The code at
`main.go:149-153` tests `err == nil`: on a non-nil Loop error the
watcher goroutine simply ends and the process keeps serving, while a
nil return triggers `klog.Exitf("loop failed: <nil>")`. -/
theorem loopWatcher_inverted_error_check :
    loopWatcherStep (some "GET https://api.github.com/repos/x/y/issues: 401 Bad credentials")
      = LAct.goroutineEnds ∧
    loopWatcherStep none = LAct.exitFatal "loop failed: <nil>" :=
  ⟨rfl, rfl⟩

/-- C8: with an empty `--config` flag value, `main` exits fatally at
once: no token is read, no file is opened, and the cache is not
touched. -/
theorem empty_config_fatal_before_all (fl : Flags) (w : World)
    (hc : fl.configPath = "") :
    (mainRun fl w).outcome = Outcome.fatalExit "config-required" ∧
    (mainRun fl w).events = [] ∧
    Ev.readToken ∉ (mainRun fl w).events ∧
    Ev.openConfig ∉ (mainRun fl w).events ∧
    Ev.initCache ∉ (mainRun fl w).events := by
  simp [mainRun, hc]

/-- Witness for `empty_config_fatal_before_all` at a concrete input. -/
theorem empty_config_fatal_before_all_witness :
    (mainRun ⟨"", "", "", false, 8080, ""⟩ ⟨none, none, none, none, none, [], none, none, ""⟩).outcome
        = Outcome.fatalExit "config-required" ∧
    (mainRun ⟨"", "", "", false, 8080, ""⟩ ⟨none, none, none, none, none, [], none, none, ""⟩).events
        = [] ∧
    Ev.readToken ∉ (mainRun ⟨"", "", "", false, 8080, ""⟩ ⟨none, none, none, none, none, [], none, none, ""⟩).events ∧
    Ev.openConfig ∉ (mainRun ⟨"", "", "", false, 8080, ""⟩ ⟨none, none, none, none, none, [], none, none, ""⟩).events ∧
    Ev.initCache ∉ (mainRun ⟨"", "", "", false, 8080, ""⟩ ⟨none, none, none, none, none, [], none, none, ""⟩).events :=
  empty_config_fatal_before_all _ _ rfl

/-- C3: a non-nil error from the cache load (`c.Initialize()`) is fatal
before configuration load, rule listing, updater construction, the loop
or the HTTP server. -/
theorem cacheInit_error_fatal_before_load (fl : Flags) (w : World) (e : String)
    (hc : fl.configPath ≠ "") (ht : w.tokenErr = none) (ho : w.openErr = none)
    (hi : w.cacheInitErr = some e) :
    (mainRun fl w).outcome = Outcome.fatalExit "initcache" ∧
    Ev.loadConfig ∉ (mainRun fl w).events ∧
    Ev.listRulesEv ∉ (mainRun fl w).events ∧
    Ev.newUpdater ∉ (mainRun fl w).events ∧
    Ev.startLoop ∉ (mainRun fl w).events ∧
    Ev.startServer ∉ (mainRun fl w).events := by
  simp [mainRun, hc, ht, ho, hi]

/-- Witness for `cacheInit_error_fatal_before_load` at a concrete input. -/
theorem cacheInit_error_fatal_before_load_witness :
    (mainRun ⟨"c.yaml", "", "", false, 8080, ""⟩
        ⟨none, none, some "corrupt cache", none, none, [], none, none, ""⟩).outcome
      = Outcome.fatalExit "initcache" ∧
    Ev.loadConfig ∉ (mainRun ⟨"c.yaml", "", "", false, 8080, ""⟩
        ⟨none, none, some "corrupt cache", none, none, [], none, none, ""⟩).events ∧
    Ev.listRulesEv ∉ (mainRun ⟨"c.yaml", "", "", false, 8080, ""⟩
        ⟨none, none, some "corrupt cache", none, none, [], none, none, ""⟩).events ∧
    Ev.newUpdater ∉ (mainRun ⟨"c.yaml", "", "", false, 8080, ""⟩
        ⟨none, none, some "corrupt cache", none, none, [], none, none, ""⟩).events ∧
    Ev.startLoop ∉ (mainRun ⟨"c.yaml", "", "", false, 8080, ""⟩
        ⟨none, none, some "corrupt cache", none, none, [], none, none, ""⟩).events ∧
    Ev.startServer ∉ (mainRun ⟨"c.yaml", "", "", false, 8080, ""⟩
        ⟨none, none, some "corrupt cache", none, none, [], none, none, ""⟩).events := by
  have h := cacheInit_error_fatal_before_load
    ⟨"c.yaml", "", "", false, 8080, ""⟩
    ⟨none, none, some "corrupt cache", none, none, [], none, none, ""⟩
    "corrupt cache" (by decide) rfl rfl rfl
  exact h

/-- C4: once configuration load and rule listing have succeeded, the
write-access pre-check `c.Save()` happens exactly once, after the
configuration load and before the updater (and, in continuous mode, the
HTTP server); a non-nil error from it is fatal. -/
theorem preSave_once_after_load_before_updater (fl : Flags) (w : World)
    (hc : fl.configPath ≠ "") (ht : w.tokenErr = none) (ho : w.openErr = none)
    (hi : w.cacheInitErr = none) (hl : w.loadErr = none) (hr : w.listRulesErr = none) :
    (mainRun fl w).events.count Ev.preSave = 1 ∧
    evBefore Ev.loadConfig Ev.preSave (mainRun fl w).events ∧
    (∀ e, w.preSaveErr = some e →
      (mainRun fl w).outcome = Outcome.fatalExit "presave" ∧
      Ev.newUpdater ∉ (mainRun fl w).events ∧
      Ev.startServer ∉ (mainRun fl w).events) ∧
    (w.preSaveErr = none →
      evBefore Ev.preSave Ev.newUpdater (mainRun fl w).events ∧
      (fl.dryRun = false → evBefore Ev.preSave Ev.startServer (mainRun fl w).events)) := by
  cases hs : w.preSaveErr with
  | some e =>
    refine ⟨?_, ⟨3, 5, by omega, ?_, ?_⟩, ?_, ?_⟩ <;>
      simp [mainRun, hc, ht, ho, hi, hl, hr, hs, evBefore] <;> try decide
  | none =>
    cases hd : fl.dryRun with
    | true =>
      cases hro : w.runOnceErr with
      | some e =>
        refine ⟨?_, ⟨3, 5, by omega, ?_, ?_⟩, ?_, fun _ => ⟨⟨5, 6, by omega, ?_, ?_⟩, ?_⟩⟩ <;>
          simp [mainRun, hc, ht, ho, hi, hl, hr, hs, hd, hro] <;> try decide
      | none =>
        refine ⟨?_, ⟨3, 5, by omega, ?_, ?_⟩, ?_, fun _ => ⟨⟨5, 6, by omega, ?_, ?_⟩, ?_⟩⟩ <;>
          simp [mainRun, hc, ht, ho, hi, hl, hr, hs, hd, hro] <;> try decide
    | false =>
      refine ⟨?_, ⟨3, 5, by omega, ?_, ?_⟩, ?_,
          fun _ => ⟨⟨5, 6, by omega, ?_, ?_⟩, fun _ => ⟨5, 9, by omega, ?_, ?_⟩⟩⟩ <;>
        simp [mainRun, hc, ht, ho, hi, hl, hr, hs, hd] <;> try decide

/-- Witness for `preSave_once_after_load_before_updater` at a concrete
input. -/
theorem preSave_once_after_load_before_updater_witness :
    (mainRun ⟨"c.yaml", "", "", false, 8080, ""⟩
        ⟨none, none, none, none, none, [], none, none, ""⟩).events.count Ev.preSave = 1 ∧
    evBefore Ev.loadConfig Ev.preSave (mainRun ⟨"c.yaml", "", "", false, 8080, ""⟩
        ⟨none, none, none, none, none, [], none, none, ""⟩).events ∧
    (∀ e, (⟨none, none, none, none, none, [], none, none, ""⟩ : World).preSaveErr = some e →
      (mainRun ⟨"c.yaml", "", "", false, 8080, ""⟩
          ⟨none, none, none, none, none, [], none, none, ""⟩).outcome
        = Outcome.fatalExit "presave" ∧
      Ev.newUpdater ∉ (mainRun ⟨"c.yaml", "", "", false, 8080, ""⟩
          ⟨none, none, none, none, none, [], none, none, ""⟩).events ∧
      Ev.startServer ∉ (mainRun ⟨"c.yaml", "", "", false, 8080, ""⟩
          ⟨none, none, none, none, none, [], none, none, ""⟩).events) ∧
    ((⟨none, none, none, none, none, [], none, none, ""⟩ : World).preSaveErr = none →
      evBefore Ev.preSave Ev.newUpdater (mainRun ⟨"c.yaml", "", "", false, 8080, ""⟩
          ⟨none, none, none, none, none, [], none, none, ""⟩).events ∧
      ((⟨"c.yaml", "", "", false, 8080, ""⟩ : Flags).dryRun = false →
        evBefore Ev.preSave Ev.startServer (mainRun ⟨"c.yaml", "", "", false, 8080, ""⟩
            ⟨none, none, none, none, none, [], none, none, ""⟩).events)) :=
  preSave_once_after_load_before_updater
    ⟨"c.yaml", "", "", false, 8080, ""⟩
    ⟨none, none, none, none, none, [], none, none, ""⟩
    (by decide) rfl rfl rfl rfl rfl

/-- C2: with `--dry-run`, `main` calls `u.RunOnce(ctx, true)` exactly
once, never starts the loop or the HTTP server, exits non-zero when
`RunOnce` returned a non-nil error and with status 0 when it returned
nil. -/
theorem dryRun_single_forced_runOnce_gates_exit (fl : Flags) (w : World)
    (hc : fl.configPath ≠ "") (ht : w.tokenErr = none) (ho : w.openErr = none)
    (hi : w.cacheInitErr = none) (hl : w.loadErr = none) (hr : w.listRulesErr = none)
    (hs : w.preSaveErr = none) (hd : fl.dryRun = true) :
    (mainRun fl w).events.count (Ev.runOnceEv true) = 1 ∧
    Ev.startServer ∉ (mainRun fl w).events ∧
    Ev.startLoop ∉ (mainRun fl w).events ∧
    (∀ e, w.runOnceErr = some e →
      (mainRun fl w).outcome.exitCode = some 255) ∧
    (w.runOnceErr = none → (mainRun fl w).outcome = Outcome.exitZero ∧
      (mainRun fl w).outcome.exitCode = some 0) := by
  cases hro : w.runOnceErr <;>
    simp [mainRun, hc, ht, ho, hi, hl, hr, hs, hd, hro, Outcome.exitCode] <;> try decide

/-- Witness for `dryRun_single_forced_runOnce_gates_exit` at a concrete
input. -/
theorem dryRun_single_forced_runOnce_gates_exit_witness :
    (mainRun ⟨"c.yaml", "", "", true, 8080, ""⟩
        ⟨none, none, none, none, none, [], none, none, ""⟩).events.count (Ev.runOnceEv true) = 1 ∧
    Ev.startServer ∉ (mainRun ⟨"c.yaml", "", "", true, 8080, ""⟩
        ⟨none, none, none, none, none, [], none, none, ""⟩).events ∧
    Ev.startLoop ∉ (mainRun ⟨"c.yaml", "", "", true, 8080, ""⟩
        ⟨none, none, none, none, none, [], none, none, ""⟩).events ∧
    (∀ e, (⟨none, none, none, none, none, [], none, none, ""⟩ : World).runOnceErr = some e →
      (mainRun ⟨"c.yaml", "", "", true, 8080, ""⟩
          ⟨none, none, none, none, none, [], none, none, ""⟩).outcome.exitCode = some 255) ∧
    ((⟨none, none, none, none, none, [], none, none, ""⟩ : World).runOnceErr = none →
      (mainRun ⟨"c.yaml", "", "", true, 8080, ""⟩
          ⟨none, none, none, none, none, [], none, none, ""⟩).outcome = Outcome.exitZero ∧
      (mainRun ⟨"c.yaml", "", "", true, 8080, ""⟩
          ⟨none, none, none, none, none, [], none, none, ""⟩).outcome.exitCode = some 0) :=
  dryRun_single_forced_runOnce_gates_exit
    ⟨"c.yaml", "", "", true, 8080, ""⟩
    ⟨none, none, none, none, none, [], none, none, ""⟩
    (by decide) rfl rfl rfl rfl rfl rfl rfl

/-- C5: the signal handler installed for SIGINT/SIGTERM calls
`c.Save()` and only then exits, and always exits with status 0 — a save
error is logged, never fatal. -/
theorem signal_save_then_exit_zero (sig : String) (hsig : sig ∈ handledSignals)
    (saveErr : Option String) :
    (signalHandlerStep sig saveErr).getLast? = some (HAct.exitProcess 0) ∧
    (∃ i j, i < j ∧ (signalHandlerStep sig saveErr).get? i = some HAct.saveCache ∧
      (signalHandlerStep sig saveErr).get? j = some (HAct.exitProcess 0)) ∧
    (∀ n, HAct.exitProcess n ∈ signalHandlerStep sig saveErr → n = 0) := by
  cases saveErr with
  | some e =>
    refine ⟨?_, ⟨1, 3, by omega, ?_, ?_⟩, ?_⟩ <;> simp [signalHandlerStep]
  | none =>
    refine ⟨?_, ⟨1, 2, by omega, ?_, ?_⟩, ?_⟩ <;> simp [signalHandlerStep]

/-- Witness for `signal_save_then_exit_zero` at a concrete input. -/
theorem signal_save_then_exit_zero_witness :
    (signalHandlerStep "SIGTERM" (some "disk full")).getLast? = some (HAct.exitProcess 0) ∧
    (∃ i j, i < j ∧
      (signalHandlerStep "SIGTERM" (some "disk full")).get? i = some HAct.saveCache ∧
      (signalHandlerStep "SIGTERM" (some "disk full")).get? j = some (HAct.exitProcess 0)) ∧
    (∀ n, HAct.exitProcess n ∈ signalHandlerStep "SIGTERM" (some "disk full") → n = 0) :=
  signal_save_then_exit_zero "SIGTERM" (by decide) (some "disk full")

/-- C6: a non-empty `--repos` value makes `main` set `cfg.Repos` to the
comma-split of the override before the configuration is loaded (the
conclusion holds for every value of `w.loadErr`, i.e. the assignment
precedes `tp.Load`), and the spec-modelled resolution then supersedes
the configuration-declared list wholesale; an empty override leaves the
configuration's own list in effect. -/
theorem reposOverride_supersedes_config (fl : Flags) (w : World)
    (hc : fl.configPath ≠ "") (ht : w.tokenErr = none) (ho : w.openErr = none)
    (hi : w.cacheInitErr = none) :
    (fl.reposOverride ≠ "" →
      (mainRun fl w).cfgRepos = some (fl.reposOverride.splitOn ",") ∧
      ∀ configDeclared,
        effectiveRepos configDeclared (mainRun fl w).cfgRepos = fl.reposOverride.splitOn ",") ∧
    (fl.reposOverride = "" →
      (mainRun fl w).cfgRepos = none ∧
      ∀ configDeclared, effectiveRepos configDeclared (mainRun fl w).cfgRepos = configDeclared) := by
  have hres : (mainRun fl w).cfgRepos =
      if fl.reposOverride = "" then none else some (fl.reposOverride.splitOn ",") := by
    cases hl : w.loadErr <;> cases hr : w.listRulesErr <;> cases hs : w.preSaveErr <;>
      cases hd : fl.dryRun <;> cases hro : w.runOnceErr <;>
        simp [mainRun, hc, ht, ho, hi, hl, hr, hs, hd, hro]
  constructor
  · intro hov
    rw [hres, if_neg hov]
    exact ⟨rfl, fun _ => rfl⟩
  · intro hov
    rw [hres, if_pos hov]
    exact ⟨rfl, fun _ => rfl⟩

/-- Witness for `reposOverride_supersedes_config` at a concrete input. -/
theorem reposOverride_supersedes_config_witness :
    ((⟨"c.yaml", "", "a/b,c/d", false, 8080, ""⟩ : Flags).reposOverride ≠ "" →
      (mainRun ⟨"c.yaml", "", "a/b,c/d", false, 8080, ""⟩
          ⟨none, none, none, none, none, [], none, none, ""⟩).cfgRepos
        = some (("a/b,c/d" : String).splitOn ",") ∧
      ∀ configDeclared,
        effectiveRepos configDeclared
            (mainRun ⟨"c.yaml", "", "a/b,c/d", false, 8080, ""⟩
              ⟨none, none, none, none, none, [], none, none, ""⟩).cfgRepos
          = ("a/b,c/d" : String).splitOn ",") ∧
    ((⟨"c.yaml", "", "a/b,c/d", false, 8080, ""⟩ : Flags).reposOverride = "" →
      (mainRun ⟨"c.yaml", "", "a/b,c/d", false, 8080, ""⟩
          ⟨none, none, none, none, none, [], none, none, ""⟩).cfgRepos = none ∧
      ∀ configDeclared,
        effectiveRepos configDeclared
            (mainRun ⟨"c.yaml", "", "a/b,c/d", false, 8080, ""⟩
              ⟨none, none, none, none, none, [], none, none, ""⟩).cfgRepos
          = configDeclared) :=
  reposOverride_supersedes_config
    ⟨"c.yaml", "", "a/b,c/d", false, 8080, ""⟩
    ⟨none, none, none, none, none, [], none, none, ""⟩
    (by decide) rfl rfl rfl

/-- C7: with an empty `--initcache` flag the cache path is
`DefaultDiskPath(configPath, reposOverride)`, a pure function of the
pair, and (as modelled from the spec) distinct pairs never produce the
same path; a non-empty `--initcache` value is used verbatim. -/
theorem cachePath_deterministic_and_collision_free (fl : Flags) (w : World)
    (hc : fl.configPath ≠ "") (ht : w.tokenErr = none) (ho : w.openErr = none) :
    (fl.initCachePath = "" →
      (mainRun fl w).cachePath = some (DefaultDiskPath fl.configPath fl.reposOverride)) ∧
    (fl.initCachePath ≠ "" → (mainRun fl w).cachePath = some fl.initCachePath) ∧
    (∀ c₁ r₁ c₂ r₂, DefaultDiskPath c₁ r₁ = DefaultDiskPath c₂ r₂ → c₁ = c₂ ∧ r₁ = r₂) := by
  have hres : (mainRun fl w).cachePath =
      some (if fl.initCachePath = "" then DefaultDiskPath fl.configPath fl.reposOverride
        else fl.initCachePath) := by
    cases hi : w.cacheInitErr <;> cases hl : w.loadErr <;> cases hr : w.listRulesErr <;>
      cases hs : w.preSaveErr <;> cases hd : fl.dryRun <;> cases hro : w.runOnceErr <;>
        simp [mainRun, hc, ht, ho, hi, hl, hr, hs, hd, hro]
  refine ⟨fun h => ?_, fun h => ?_, defaultDiskPath_inj⟩
  · rw [hres, if_pos h]
  · rw [hres, if_neg h]

/-- Witness for `cachePath_deterministic_and_collision_free` at a
concrete input. -/
theorem cachePath_deterministic_and_collision_free_witness :
    ((⟨"c.yaml", "", "a/b", false, 8080, ""⟩ : Flags).initCachePath = "" →
      (mainRun ⟨"c.yaml", "", "a/b", false, 8080, ""⟩
          ⟨none, none, none, none, none, [], none, none, ""⟩).cachePath
        = some (DefaultDiskPath "c.yaml" "a/b")) ∧
    ((⟨"c.yaml", "", "a/b", false, 8080, ""⟩ : Flags).initCachePath ≠ "" →
      (mainRun ⟨"c.yaml", "", "a/b", false, 8080, ""⟩
          ⟨none, none, none, none, none, [], none, none, ""⟩).cachePath = some "") ∧
    (∀ c₁ r₁ c₂ r₂, DefaultDiskPath c₁ r₁ = DefaultDiskPath c₂ r₂ → c₁ = c₂ ∧ r₁ = r₂) :=
  cachePath_deterministic_and_collision_free
    ⟨"c.yaml", "", "a/b", false, 8080, ""⟩
    ⟨none, none, none, none, none, [], none, none, ""⟩
    (by decide) rfl rfl

/-- C9: the continuous-mode server address prefers the PORT environment
variable: a non-empty PORT gives `":" ++ PORT` (the `--port` flag is
ignored: the address is the same for any flag value), and only an unset
or empty PORT falls back to `":" ++ port`. -/
theorem port_env_precedence (fl : Flags) (w : World)
    (hc : fl.configPath ≠ "") (ht : w.tokenErr = none) (ho : w.openErr = none)
    (hi : w.cacheInitErr = none) (hl : w.loadErr = none) (hr : w.listRulesErr = none)
    (hs : w.preSaveErr = none) (hd : fl.dryRun = false) :
    (mainRun fl w).outcome = Outcome.serving (listenAddr w.portEnv fl.port) ∧
    (w.portEnv ≠ "" → listenAddr w.portEnv fl.port = ":" ++ w.portEnv) ∧
    (w.portEnv = "" → listenAddr w.portEnv fl.port = ":" ++ toString fl.port) ∧
    (∀ env : String, env ≠ "" → ∀ p q : Int, listenAddr env p = listenAddr env q) := by
  refine ⟨?_, ?_, ?_, ?_⟩
  · simp [mainRun, hc, ht, ho, hi, hl, hr, hs, hd]
  · intro h
    have hne : ¬(":" ++ w.portEnv = ":") := fun hcon =>
      h ((colon_append_eq_colon_iff w.portEnv).mp hcon)
    simp [listenAddr, hne]
  · intro h
    rw [listenAddr, h]
    rfl
  · intro env h p q
    have hne : ¬(":" ++ env = ":") := fun hcon =>
      h ((colon_append_eq_colon_iff env).mp hcon)
    simp [listenAddr, hne]

/-- Witness for `port_env_precedence` at a concrete input. -/
theorem port_env_precedence_witness :
    (mainRun ⟨"c.yaml", "", "", false, 8080, ""⟩
        ⟨none, none, none, none, none, [], none, none, "9090"⟩).outcome
      = Outcome.serving (listenAddr "9090" 8080) ∧
    (("9090" : String) ≠ "" → listenAddr "9090" 8080 = ":" ++ "9090") ∧
    (("9090" : String) = "" → listenAddr "9090" 8080 = ":" ++ toString (8080 : Int)) ∧
    (∀ env : String, env ≠ "" → ∀ p q : Int, listenAddr env p = listenAddr env q) :=
  port_env_precedence
    ⟨"c.yaml", "", "", false, 8080, ""⟩
    ⟨none, none, none, none, none, [], none, none, "9090"⟩
    (by decide) rfl rfl rfl rfl rfl rfl rfl

/-- C10: with an empty `--name` flag the site name is
`calculateSiteName` of the loaded rules — the `" + "`-join of the
distinct final `/`-components of every repository of every rule, each
distinct base exactly once (the joined key list is duplicate-free and
contains exactly the bases); a non-empty `--name` is used verbatim. -/
theorem siteName_distinct_repo_bases (fl : Flags) (w : World)
    (hc : fl.configPath ≠ "") (ht : w.tokenErr = none) (ho : w.openErr = none)
    (hi : w.cacheInitErr = none) (hl : w.loadErr = none) (hr : w.listRulesErr = none) :
    (fl.siteNameFlag = "" →
      (mainRun fl w).siteName = some (calculateSiteName w.rules)) ∧
    (fl.siteNameFlag ≠ "" → (mainRun fl w).siteName = some fl.siteNameFlag) ∧
    (∀ ts : List Rule,
      calculateSiteName ts = String.intercalate " + " (seenKeys ts) ∧
      (seenKeys ts).Nodup ∧
      (∀ b, (b ∈ seenKeys ts ↔ ∃ t ∈ ts, ∃ r ∈ t.repos, repoBase r = b) ∧
        (b ∈ seenKeys ts → (seenKeys ts).count b = 1))) := by
  have hres : (mainRun fl w).siteName =
      some (if fl.siteNameFlag = "" then calculateSiteName w.rules else fl.siteNameFlag) := by
    cases hs : w.preSaveErr <;> cases hd : fl.dryRun <;> cases hro : w.runOnceErr <;>
      simp [mainRun, hc, ht, ho, hi, hl, hr, hs, hd, hro]
  refine ⟨fun h => by rw [hres, if_pos h], fun h => by rw [hres, if_neg h], fun ts => ?_⟩
  refine ⟨rfl, nodup_seenKeys ts, fun b => ⟨mem_seenKeys ts b, fun hb => ?_⟩⟩
  exact List.count_eq_one_of_mem (nodup_seenKeys ts) hb

/-- Witness for `siteName_distinct_repo_bases` at a concrete input. -/
theorem siteName_distinct_repo_bases_witness :
    ((⟨"c.yaml", "", "", false, 8080, ""⟩ : Flags).siteNameFlag = "" →
      (mainRun ⟨"c.yaml", "", "", false, 8080, ""⟩
          ⟨none, none, none, none, none,
            [⟨["google/triage-party", "google/mtail"]⟩, ⟨["other/triage-party"]⟩],
            none, none, ""⟩).siteName
        = some (calculateSiteName
            [⟨["google/triage-party", "google/mtail"]⟩, ⟨["other/triage-party"]⟩])) ∧
    ((⟨"c.yaml", "", "", false, 8080, ""⟩ : Flags).siteNameFlag ≠ "" →
      (mainRun ⟨"c.yaml", "", "", false, 8080, ""⟩
          ⟨none, none, none, none, none,
            [⟨["google/triage-party", "google/mtail"]⟩, ⟨["other/triage-party"]⟩],
            none, none, ""⟩).siteName = some "") ∧
    (∀ ts : List Rule,
      calculateSiteName ts = String.intercalate " + " (seenKeys ts) ∧
      (seenKeys ts).Nodup ∧
      (∀ b, (b ∈ seenKeys ts ↔ ∃ t ∈ ts, ∃ r ∈ t.repos, repoBase r = b) ∧
        (b ∈ seenKeys ts → (seenKeys ts).count b = 1))) :=
  siteName_distinct_repo_bases
    ⟨"c.yaml", "", "", false, 8080, ""⟩
    ⟨none, none, none, none, none,
      [⟨["google/triage-party", "google/mtail"]⟩, ⟨["other/triage-party"]⟩],
      none, none, ""⟩
    (by decide) rfl rfl rfl rfl rfl
